import Mathlib

/-!
Verification of the Instagram browser-automation client
(`src/instagram_tool.py`) and its Kortix tool adapter
(`src/kortix_integration_template.py`).

The client drives a browser page through DOM queries.  We embed a page's
DOM at query time as a predicate on selector strings (`Dom`): `dom s = true`
means `page.query_selector(s)` finds an element.  Each client method is
translated into a pure function returning its Python result as
`Except String α` (`Except.error` = a raised exception, `Except.ok` = a
normal return) together with the ordered list of observable side effects
(`Event`): navigations, element queries, clicks, fills, file attachments and
log lines.  Fixed `asyncio.sleep` delays are timing-only and carry no
observable effect, so they are not recorded.
-/

namespace Insta

/-- The DOM as seen by `page.query_selector`: does a selector match? -/
abbrev Dom := String → Bool

/-- Observable side effects of a client method, in program order. -/
inductive Event where
  | goto (url : String)
  | query (selector : String) (found : Bool)
  | click (selector : String)
  | fill (selector : String) (text : String)
  | setInputFiles (selector : String) (path : String)
  | log (msg : String)
  | browserClose
deriving DecidableEq, Repr

/-- Session state of `InstagramAutomationTool`: whether `self.browser` and
`self.page` are set (`init` sets both, `close` clears both). -/
structure ClientState where
  browser : Bool
  page : Bool
deriving DecidableEq, Repr

/-- Fresh state from `__init__`: no browser, no page. -/
def ClientState.initial : ClientState := { browser := false, page := false }

/-- `init()`: launches the browser and creates the page (launch assumed to
succeed; on failure the error would propagate, which no claim concerns). -/
def init (_st : ClientState) : ClientState := { browser := true, page := true }

/-- Python truthiness of an optional string (`None` and `""` are falsy),
as used by `username or os.getenv(...)` and `if not username`. -/
def truthy : Option String → Bool
  | none => false
  | some s => !s.isEmpty

/-- `arg or env`: Python `or` yields `arg` when truthy, else `env`. -/
def resolveCred (arg env : Option String) : Option String :=
  if truthy arg then arg else env

/-- Process-wide configuration read by `os.getenv` at login time. -/
structure Config where
  ig_username : Option String
  ig_password : Option String

def login_url : String := "https://www.instagram.com/accounts/login/"

def username_input_selector : String := "input[name=\"username\"]"

def password_input_selector : String := "input[name=\"password\"]"

def submit_button_selector : String := "button[type=\"submit\"]"

def save_info_selector : String := "button:has-text(\"Save Info\")"

def security_not_now_selector : String := "button:has-text(\"Not Now\")"

/-- `_handle_security_checks`: probes the "Save Info" prompt, clicking it if
present, then independently probes the "Not Now" prompt, clicking it if
present.  Its `try`/`except` only logs, and no step here raises, so the
handler always returns normally. -/
def handle_security_checks (dom : Dom) (st : ClientState) : List Event :=
  if !st.page then []
  else
    (if dom save_info_selector then
      [Event.query save_info_selector true, Event.click save_info_selector]
    else
      [Event.query save_info_selector false]) ++
    (if dom security_not_now_selector then
      [Event.query security_not_now_selector true,
       Event.click security_not_now_selector]
    else
      [Event.query security_not_now_selector false])

/-- The ordered selector strategies of `_handle_notification_popup`. -/
def not_now_selectors : List String :=
  ["button:has-text(\"Not Now\")",
   "div:has-text(\"Not Now\")",
   "//button[contains(text(), \"Not Now\")]",
   "//div[contains(text(), \"Not Now\")]"]

def popup_dismissed_log : String := "Notification popup dismissed"

def popup_not_found_log : String :=
  "\x27Not Now\x27 button not found in notification dialog"

/-- The `for selector in not_now_selectors` loop: query each strategy in
order; on the first match click it and return; if none match, log and
return normally. -/
def dismissLoop (dom : Dom) : List String → List Event
  | [] => [Event.log popup_not_found_log]
  | s :: rest =>
    if dom s then
      [Event.query s true, Event.click s, Event.log popup_dismissed_log]
    else
      Event.query s false :: dismissLoop dom rest

/-- `_handle_notification_popup`: no-op without a page, otherwise the
ordered-fallback loop.  Nothing in the loop raises, so the surrounding
`try`/`except` never fires and the routine always returns normally. -/
def handle_notification_popup (dom : Dom) (st : ClientState) : List Event :=
  if !st.page then [] else dismissLoop dom not_now_selectors

def login_failed_log : String := "Login form elements not found"

/-- `login(username=None, password=None)`: precondition checks (page
initialized, credentials resolved from arguments or configuration) raise
`ValueError` before any navigation; inside the `try` block, missing form
controls soft-fail with `False` and a logged diagnostic; a located form is
filled, submitted, and followed by the security-check handler.  Navigation
itself is modelled as succeeding (a navigation error would be caught by the
same `except` and also yield `False`). -/
def login (cfg : Config) (dom : Dom) (st : ClientState)
    (username password : Option String) : Except String Bool × List Event :=
  if !st.page then (Except.error "Page not initialized", [])
  else
    let username := resolveCred username cfg.ig_username
    let password := resolveCred password cfg.ig_password
    if !truthy username || !truthy password then
      (Except.error "Instagram credentials not provided", [])
    else
      let nav : List Event := [Event.goto login_url]
      let qU := dom username_input_selector
      let qP := dom password_input_selector
      let queries : List Event :=
        [Event.query username_input_selector qU,
         Event.query password_input_selector qP]
      if qU && qP then
        let fills : List Event :=
          [Event.fill username_input_selector (username.getD ""),
           Event.fill password_input_selector (password.getD "")]
        if dom submit_button_selector then
          (Except.ok true,
           nav ++ queries ++ fills ++
             [Event.query submit_button_selector true,
              Event.click submit_button_selector] ++
             handle_security_checks dom st ++
             [Event.log "Login successful"])
        else
          (Except.ok false,
           nav ++ queries ++ fills ++
             [Event.query submit_button_selector false,
              Event.log login_failed_log])
      else
        (Except.ok false, nav ++ queries ++ [Event.log login_failed_log])

def message_button_selector : String :=
  "button:has-text(\"Message\"), div:has-text(\"Message\")"

def file_input_selector : String := "input[type=\"file\"]"

/-- The ordered message-compose selector strategies of `send_direct_message`. -/
def message_input_selectors : List String :=
  ["textarea[placeholder*=\"Message\"]",
   "div[role=\"textbox\"]",
   "div[contenteditable=\"true\"]"]

def send_button_selector : String :=
  "button:has-text(\"Send\"), div:has-text(\"Send\")"

/-- The `except` clause of `send_direct_message` logs the failure before
re-raising: `print(f"Failed to send DM to {username}: {e}")`. -/
def dmFailLog (username errmsg : String) : Event :=
  Event.log ("Failed to send DM to " ++ username ++ ": " ++ errmsg)

/-- The `for selector in message_input_selectors` loop: first matching
selector, with the queries attempted along the way. -/
def findFirst (dom : Dom) : List String → Option String × List Event
  | [] => (none, [])
  | s :: rest =>
    if dom s then (some s, [Event.query s true])
    else
      let r := findFirst dom rest
      (r.1, Event.query s false :: r.2)

/-- `send_direct_message(username, message, media_path=None)`: precondition
check, navigation to the profile, then the staged control lookups.  A
missing required control (message button, message input after all
strategies, send button) raises `ValueError`, which the `except` clause
logs and re-raises, so the error propagates with all effects so far
recorded.  A missing file input for an attachment only logs. -/
def send_direct_message (dom : Dom) (st : ClientState)
    (username message : String) (media_path : Option String) :
    Except String Unit × List Event :=
  if !st.page then (Except.error "Page not initialized", [])
  else
    let nav : List Event :=
      [Event.goto ("https://www.instagram.com/" ++ username ++ "/")]
    if !dom message_button_selector then
      (Except.error "Message button not found",
       nav ++ [Event.query message_button_selector false,
               dmFailLog username "Message button not found"])
    else
      let evs1 : List Event :=
        nav ++ [Event.query message_button_selector true,
                Event.click message_button_selector] ++
          handle_notification_popup dom st
      let mediaEvs : List Event :=
        match media_path with
        | none => []
        | some p =>
          if dom file_input_selector then
            [Event.query file_input_selector true,
             Event.setInputFiles file_input_selector p]
          else
            [Event.query file_input_selector false,
             Event.log "File input not found for media attachment"]
      let found := findFirst dom message_input_selectors
      match found.1 with
      | none =>
        (Except.error "Message input not found",
         evs1 ++ mediaEvs ++ found.2 ++
           [dmFailLog username "Message input not found"])
      | some sel =>
        let evs2 : List Event :=
          evs1 ++ mediaEvs ++ found.2 ++ [Event.fill sel message]
        if dom send_button_selector then
          (Except.ok (),
           evs2 ++ [Event.query send_button_selector true,
                    Event.click send_button_selector,
                    Event.log "Message sent successfully"])
        else
          (Except.error "Send button not found",
           evs2 ++ [Event.query send_button_selector false,
                    dmFailLog username "Send button not found"])

/-- `interact_with_posts(max_posts=20)`: precondition-checked stub that only
logs. -/
def interact_with_posts (st : ClientState) (max_posts : Nat) :
    Except String Unit × List Event :=
  if !st.page then (Except.error "Page not initialized", [])
  else
    (Except.ok (),
     [Event.log ("Post interaction for " ++ toString max_posts ++
       " posts not yet implemented")])

/-- `scrape_followers(target_account, max_followers)`: precondition-checked
stub that logs and returns the empty list. -/
def scrape_followers (st : ClientState) (target_account : String)
    (_max_followers : Nat) : Except String (List String) × List Event :=
  if !st.page then (Except.error "Page not initialized", [])
  else
    (Except.ok [],
     [Event.log ("Follower scraping for " ++ target_account ++
       " not yet implemented")])

/-- The fixed placeholder `generate_comment` returns (the source file's
literal bytes decode to this character sequence). -/
def comment_placeholder : String :=
  "Great post! üòäüëè"

/-- `generate_comment(post_caption)`: builds a prompt string from the
caption (a dead local — it is never sent anywhere) and returns the fixed
placeholder.  Note: unlike every other action method, it performs **no**
`self.page` precondition check, no navigation and no DOM access. -/
def generate_comment (_st : ClientState) (_post_caption : String) :
    Except String String × List Event :=
  (Except.ok comment_placeholder, [])

/-- `close()`: if a browser handle exists, `await self.browser.close()`
(whose outcome the environment supplies; the code does not guard it), then
clear both the browser and the page reference; with no browser handle the
call does nothing.  On a raised `browser.close()` the clearing assignments
do not run. -/
def close (browserCloseResult : Except String Unit) (st : ClientState) :
    Except String Unit × ClientState × List Event :=
  if st.browser then
    match browserCloseResult with
    | Except.error e => (Except.error e, st, [Event.browserClose])
    | Except.ok () =>
      (Except.ok (), { browser := false, page := false }, [Event.browserClose])
  else
    (Except.ok (), st, [])

/-! ## Tool adapter (`src/kortix_integration_template.py`)

The adapter wraps a lazily constructed client.  We embed the client the
adapter talks to as a record of fallible operations (`ClientBehavior`):
each field is the `Except`-typed outcome of the corresponding awaited
client call, `Except.error` standing for a raised exception. -/

/-- A JSON-like payload value inside a tool response. -/
inductive JVal where
  | str (s : String)
  | num (n : Nat)
  | bool (b : Bool)
  | arr (xs : List String)
  | null
deriving DecidableEq, Repr

/-- An ordered payload of named fields, as passed to `success_response`. -/
abbrev Payload := List (String × JVal)

/-- The two-shape envelope returned to the external runtime:
`success_response(payload)` or `fail_response(message)`. -/
inductive ToolResult where
  | success (payload : Payload)
  | failure (msg : String)
deriving DecidableEq, Repr

/-- Outcomes of the awaited client calls an adapter method makes.
`ensureInit` is `_ensure_instagram_client` (construction plus `init`),
`gotoProfile` the direct `page.goto` of `instagram_interact_with_posts`,
and `closeClient` the client's `close`. -/
structure ClientBehavior where
  ensureInit : Except String Unit
  sendDM : String → String → Option String → Except String Unit
  gotoProfile : String → Except String Unit
  interact : Nat → Except String Unit
  scrape : String → Nat → Except String (List String)
  closeClient : Except String Unit

/-- The `try`/`except` boundary shared by the four adapter action methods:
a normal body yields a success envelope, a raised exception is caught and
converted to a failure envelope built from the error text.  The outer
`Except` is the adapter method's own outcome toward the runtime. -/
def adapter_call (body : Except String Payload) (failMsg : String → String) :
    Except String ToolResult :=
  match body with
  | Except.ok p => Except.ok (ToolResult.success p)
  | Except.error e => Except.ok (ToolResult.failure (failMsg e))

/-- `instagram_send_direct_message`: ensure the client, delegate, and build
the success payload; any exception becomes a failure envelope. -/
def instagram_send_direct_message (cb : ClientBehavior)
    (username message : String) (media_path : Option String) :
    Except String ToolResult :=
  adapter_call
    (match cb.ensureInit with
     | Except.error e => Except.error e
     | Except.ok () =>
       match cb.sendDM username message media_path with
       | Except.error e => Except.error e
       | Except.ok () =>
         Except.ok
           [("message", JVal.str ("Message sent successfully to " ++ username)),
            ("username", JVal.str username),
            ("message_content", JVal.str message),
            ("media_attached", JVal.bool media_path.isSome)])
    (fun e => "Failed to send message: " ++ e)

/-- `instagram_interact_with_posts`: ensure the client, optionally navigate
to a target account, delegate, and build the success payload; any exception
becomes a failure envelope. -/
def instagram_interact_with_posts (cb : ClientBehavior)
    (max_posts : Nat) (target_account : Option String) :
    Except String ToolResult :=
  adapter_call
    (match cb.ensureInit with
     | Except.error e => Except.error e
     | Except.ok () =>
       let nav : Except String Unit :=
         match target_account with
         | some acct => cb.gotoProfile acct
         | none => Except.ok ()
       match nav with
       | Except.error e => Except.error e
       | Except.ok () =>
         match cb.interact max_posts with
         | Except.error e => Except.error e
         | Except.ok () =>
           Except.ok
             [("message", JVal.str ("Interacted with " ++ toString max_posts ++
                " posts successfully")),
              ("target_account",
               match target_account with
               | some a => JVal.str a
               | none => JVal.null),
              ("posts_processed", JVal.num max_posts)])
    (fun e => "Failed to interact with posts: " ++ e)

/-- `instagram_scrape_followers`: ensure the client, delegate, and build the
success payload (count, first-10 preview, "count/requested" string); any
exception becomes a failure envelope. -/
def instagram_scrape_followers (cb : ClientBehavior)
    (target_account : String) (max_followers : Nat) :
    Except String ToolResult :=
  adapter_call
    (match cb.ensureInit with
     | Except.error e => Except.error e
     | Except.ok () =>
       match cb.scrape target_account max_followers with
       | Except.error e => Except.error e
       | Except.ok followers =>
         Except.ok
           [("message", JVal.str ("Successfully scraped " ++
              toString followers.length ++ " followers from " ++
              target_account)),
            ("target_account", JVal.str target_account),
            ("followers_count", JVal.num followers.length),
            ("followers", JVal.arr (followers.take 10)),
            ("total_available", JVal.str (toString followers.length ++ "/" ++
              toString max_followers))])
    (fun e => "Failed to scrape followers: " ++ e)

/-- The fixed placeholder comment of `instagram_generate_comment`. -/
def adapter_comment_placeholder : String :=
  "This looks amazing! Can\x27t wait to try it out 🚀👏"

/-- `instagram_generate_comment(post_caption, tone="casual")`: builds a
prompt (a dead local) and returns a success payload with the placeholder
comment, a caption preview truncated to 100 characters plus an ellipsis
when longer, and the echoed tone.  Its `try` body makes no client call. -/
def instagram_generate_comment (post_caption : String) (tone : String) :
    Except String ToolResult :=
  adapter_call
    (Except.ok
      [("message", JVal.str "Comment generated successfully"),
       ("generated_comment", JVal.str adapter_comment_placeholder),
       ("post_caption_preview",
        JVal.str (if post_caption.length > 100 then
            post_caption.take 100 ++ "..."
          else
            post_caption)),
       ("tone", JVal.str tone)])
    (fun e => "Failed to generate comment: " ++ e)

/-- Adapter `close()`: forwards to the client's `close` when a client was
constructed, then clears the reference.  Unlike the action methods it has
**no** `try`/`except`, so a raised client `close` propagates and the
reference is not cleared.  The returned `Bool` is the constructed-flag
afterwards. -/
def adapter_close (cb : ClientBehavior) (constructed : Bool) :
    Except String Bool :=
  if constructed then
    match cb.closeClient with
    | Except.error e => Except.error e
    | Except.ok () => Except.ok false
  else
    Except.ok false

/-! ## Theorems -/

/-- The ordered-fallback loop queries strategies strictly in declared order,
stops at the first match (clicking it), and logs when none matches. -/
theorem dismissLoop_eq (dom : Dom) (sels : List String) :
    dismissLoop dom sels =
      (sels.takeWhile (fun s => !dom s)).map (fun s => Event.query s false) ++
      (match sels.dropWhile (fun s => !dom s) with
       | [] => [Event.log popup_not_found_log]
       | s :: _ =>
         [Event.query s true, Event.click s, Event.log popup_dismissed_log]) := by
  induction sels with
  | nil => simp [dismissLoop]
  | cons s rest ih =>
    by_cases h : dom s
    · simp [dismissLoop, h, List.takeWhile_cons, List.dropWhile_cons]
    · simp only [dismissLoop, h, Bool.false_eq_true, if_false, ih,
        List.takeWhile_cons, List.dropWhile_cons, Bool.not_false, if_true,
        List.map_cons, List.cons_append]

/-- A page exposing only the third strategy's target of
`_handle_notification_popup`. -/
def only_third_dom : Dom :=
  fun s => s == "//button[contains(text(), \"Not Now\")]"

/-- C2: `_handle_notification_popup` evaluates its selector strategies
strictly in declared order, stops at the first strategy that matches
(clicking it and returning), and when no strategy matches it only logs and
returns normally; on a page where only the third strategy's target exists,
strategies 1 and 2 are queried and fail before strategy 3 matches and is
clicked. -/
theorem claim2_ordered_fallback_dismissal :
    (∀ dom : Dom,
      handle_notification_popup dom { browser := true, page := true } =
        ((not_now_selectors.takeWhile (fun s => !dom s)).map
          (fun s => Event.query s false)) ++
        (match not_now_selectors.dropWhile (fun s => !dom s) with
         | [] => [Event.log popup_not_found_log]
         | s :: _ =>
           [Event.query s true, Event.click s,
            Event.log popup_dismissed_log])) ∧
    handle_notification_popup only_third_dom { browser := true, page := true } =
      [Event.query "button:has-text(\"Not Now\")" false,
       Event.query "div:has-text(\"Not Now\")" false,
       Event.query "//button[contains(text(), \"Not Now\")]" true,
       Event.click "//button[contains(text(), \"Not Now\")]",
       Event.log popup_dismissed_log] := by
  constructor
  · intro dom
    simpa [handle_notification_popup] using dismissLoop_eq dom not_now_selectors
  · rfl

/-- C1 (amended): the four page-using actions (`login`,
`send_direct_message`, `interact_with_posts`, `scrape_followers`) fail with
the precondition error "Page not initialized" and perform no navigation (no
events at all) when the page reference is absent; `generate_comment`,
however, performs no session check and returns its placeholder normally
with no events regardless of session state. -/
theorem claim1_uninitialized_actions (st : ClientState) (h : st.page = false) :
    (∀ cfg dom u p,
      login cfg dom st u p = (Except.error "Page not initialized", [])) ∧
    (∀ dom u m mp,
      send_direct_message dom st u m mp =
        (Except.error "Page not initialized", [])) ∧
    (∀ n, interact_with_posts st n = (Except.error "Page not initialized", [])) ∧
    (∀ t n,
      scrape_followers st t n = (Except.error "Page not initialized", [])) ∧
    (∀ c, generate_comment st c = (Except.ok comment_placeholder, [])) := by
  refine ⟨?_, ?_, ?_, ?_, ?_⟩ <;> intros <;>
    simp [login, send_direct_message, interact_with_posts, scrape_followers,
      generate_comment, h]

/-- C1 witness: on a fresh (uninitialized) client, `login` fails with the
precondition error and records no events. -/
theorem claim1_uninitialized_actions_witness :
    login { ig_username := none, ig_password := none } (fun _ => false)
        ClientState.initial none none =
      (Except.error "Page not initialized", []) :=
  (claim1_uninitialized_actions ClientState.initial rfl).1
    { ig_username := none, ig_password := none } (fun _ => false) none none

/-- C1 counterexample: `generate_comment` on an uninitialized session does
**not** fail with a precondition error — it returns its (non-empty)
placeholder normally, with no events. -/
theorem claim1_generate_comment_no_precheck :
    generate_comment ClientState.initial "Just launched our new product!" =
      (Except.ok comment_placeholder, []) ∧
    comment_placeholder ≠ "" := by
  exact ⟨rfl, by decide⟩

/-- C6: with the page initialized but username and password missing (falsy)
in both the call arguments and the process-wide configuration, `login`
raises the precondition error "Instagram credentials not provided" before
any navigation (no events), and the error is not converted to a
soft-failure return value. -/
theorem claim6_login_missing_credentials (cfg : Config) (dom : Dom)
    (st : ClientState) (u p : Option String) (hpage : st.page = true)
    (hu : truthy u = false) (hcu : truthy cfg.ig_username = false)
    (hp : truthy p = false) (hcp : truthy cfg.ig_password = false) :
    login cfg dom st u p =
      (Except.error "Instagram credentials not provided", []) := by
  simp [login, hpage, resolveCred, hu, hcu, hp, hcp]

/-- C6 witness: no arguments, empty configuration. -/
theorem claim6_login_missing_credentials_witness :
    login { ig_username := none, ig_password := none } (fun _ => true)
        { browser := true, page := true } none none =
      (Except.error "Instagram credentials not provided", []) :=
  claim6_login_missing_credentials
    { ig_username := none, ig_password := none } (fun _ => true)
    { browser := true, page := true } none none rfl rfl rfl rfl rfl

/-- C7: whenever `close` returns normally it has released the browser
process exactly when one existed (emitting the close event and clearing
both the browser and the page reference; with no browser it is a no-op),
and a second `close` on the resulting state is a safe no-op that never
raises, whatever the environment does. -/
theorem claim7_close_releases_and_idempotent (bc : Except String Unit)
    (st st' : ClientState) (evs : List Event)
    (h : close bc st = (Except.ok (), st', evs)) :
    st'.browser = false ∧
    (st.browser = true →
      st' = { browser := false, page := false } ∧ evs = [Event.browserClose]) ∧
    (st.browser = false → st' = st ∧ evs = []) ∧
    (∀ bc2, close bc2 st' = (Except.ok (), st', [])) := by
  cases hb : st.browser with
  | false =>
    simp [close, hb] at h
    obtain ⟨h1, h2⟩ := h
    subst h1; subst h2
    refine ⟨hb, by simp [hb], fun _ => ⟨rfl, rfl⟩, fun bc2 => ?_⟩
    simp [close, hb]
  | true =>
    cases bc with
    | error e => simp [close, hb] at h
    | ok u =>
      cases u
      simp [close, hb] at h
      obtain ⟨h1, h2⟩ := h
      subst h1; subst h2
      refine ⟨rfl, fun _ => ⟨rfl, rfl⟩, by simp [hb], fun bc2 => ?_⟩
      simp [close]

/-- C7 witness: after a successful `close` of a live session, a second
`close` returns normally and does nothing — even in an environment where a
browser close would fail. -/
theorem claim7_close_witness :
    close (Except.error "browser close failed")
        { browser := false, page := false } =
      (Except.ok (), { browser := false, page := false }, []) :=
  (claim7_close_releases_and_idempotent (Except.ok ())
      { browser := true, page := true } { browser := false, page := false }
      [Event.browserClose] rfl).2.2.2 (Except.error "browser close failed")

/-- C4: on an initialized session with resolved (truthy) credentials, if any
login form control (username input, password input or submit button) cannot
be located, `login` returns the soft failure `False` — no exception — and
logs the diagnostic "Login form elements not found". -/
theorem claim4_login_soft_fail (cfg : Config) (dom : Dom) (st : ClientState)
    (u p : Option String) (hpage : st.page = true)
    (hu : truthy (resolveCred u cfg.ig_username) = true)
    (hp : truthy (resolveCred p cfg.ig_password) = true)
    (hmiss : dom username_input_selector = false ∨
      dom password_input_selector = false ∨
      dom submit_button_selector = false) :
    (login cfg dom st u p).1 = Except.ok false ∧
    Event.log login_failed_log ∈ (login cfg dom st u p).2 := by
  rcases hmiss with h | h | h
  · simp [login, hpage, hu, hp, h]
  · simp [login, hpage, hu, hp, h]
  · by_cases hU : dom username_input_selector
    · by_cases hP : dom password_input_selector
      · simp [login, hpage, hu, hp, hU, hP, h]
      · simp [login, hpage, hu, hp, hU, hP]
    · simp [login, hpage, hu, hp, hU]

/-- C4 witness: a page where no selector matches; explicit credentials. -/
theorem claim4_login_soft_fail_witness :
    (login { ig_username := none, ig_password := none } (fun _ => false)
        { browser := true, page := true } (some "user") (some "pass")).1 =
      Except.ok false ∧
    Event.log login_failed_log ∈
      (login { ig_username := none, ig_password := none } (fun _ => false)
        { browser := true, page := true } (some "user") (some "pass")).2 :=
  claim4_login_soft_fail { ig_username := none, ig_password := none }
    (fun _ => false) { browser := true, page := true } (some "user")
    (some "pass") rfl rfl rfl (Or.inl rfl)

/-- C3: on an initialized session, whenever a required control of
`send_direct_message` cannot be located — the message button, the
message-compose input after all three selector strategies, or the send
button — the call raises an exception that propagates to the caller, after
the failure (with its error text) is logged. -/
theorem claim3_dm_required_control_raises (dom : Dom) (st : ClientState)
    (username message : String) (media_path : Option String)
    (hpage : st.page = true)
    (hmiss : dom message_button_selector = false ∨
      (∀ s ∈ message_input_selectors, dom s = false) ∨
      dom send_button_selector = false) :
    ∃ errmsg,
      (send_direct_message dom st username message media_path).1 =
        Except.error errmsg ∧
      dmFailLog username errmsg ∈
        (send_direct_message dom st username message media_path).2 := by
  by_cases hb : dom message_button_selector
  · rcases hmiss with h | hall | hsend
    · rw [hb] at h; cases h
    · have h1 : dom "textarea[placeholder*=\"Message\"]" = false :=
        hall _ (by simp [message_input_selectors])
      have h2 : dom "div[role=\"textbox\"]" = false :=
        hall _ (by simp [message_input_selectors])
      have h3 : dom "div[contenteditable=\"true\"]" = false :=
        hall _ (by simp [message_input_selectors])
      have hf : (findFirst dom message_input_selectors).1 = none := by
        simp [findFirst, message_input_selectors, h1, h2, h3]
      exact ⟨"Message input not found",
        by simp [send_direct_message, hpage, hb, hf]⟩
    · cases hf : (findFirst dom message_input_selectors).1 with
      | none =>
        exact ⟨"Message input not found",
          by simp [send_direct_message, hpage, hb, hf]⟩
      | some sel =>
        exact ⟨"Send button not found",
          by simp [send_direct_message, hpage, hb, hf, hsend]⟩
  · exact ⟨"Message button not found",
      by simp [send_direct_message, hpage, hb]⟩

/-- C3 witness: a page where no selector matches at all — the message
button is the first required control to be missing. -/
theorem claim3_dm_required_control_raises_witness :
    ∃ errmsg,
      (send_direct_message (fun _ => false) { browser := true, page := true }
        "target_user" "Hello" none).1 = Except.error errmsg ∧
      dmFailLog "target_user" errmsg ∈
        (send_direct_message (fun _ => false) { browser := true, page := true }
          "target_user" "Hello" none).2 :=
  claim3_dm_required_control_raises (fun _ => false)
    { browser := true, page := true } "target_user" "Hello" none rfl
    (Or.inl rfl)

/-- C10: `_handle_security_checks` probes the "Save Info" and "Not Now"
prompts independently and in sequence: when both buttons are present both
are clicked, in that order (the handler does not stop after the first
dismissal), and when neither is present it performs only the two probes and
returns normally with no click. -/
theorem claim10_security_checks_sequential :
    (∀ dom : Dom, dom save_info_selector = true →
      dom security_not_now_selector = true →
      handle_security_checks dom { browser := true, page := true } =
        [Event.query save_info_selector true, Event.click save_info_selector,
         Event.query security_not_now_selector true,
         Event.click security_not_now_selector]) ∧
    (∀ dom : Dom, dom save_info_selector = false →
      dom security_not_now_selector = false →
      handle_security_checks dom { browser := true, page := true } =
        [Event.query save_info_selector false,
         Event.query security_not_now_selector false]) := by
  constructor <;> intro dom h1 h2 <;> simp [handle_security_checks, h1, h2]

/-- The adapter's `try`/`except` boundary turns any body outcome into a
normal envelope return. -/
theorem adapter_call_never_raises (body : Except String Payload)
    (f : String → String) : ∃ r, adapter_call body f = Except.ok r := by
  cases body <;> exact ⟨_, rfl⟩

/-- C5 (amended): each of the four adapter action methods catches every
exception at its boundary and returns an envelope normally, whatever the
client does; every exception a client call can raise inside an action —
client construction/init, the optional profile navigation, or the
delegated action itself — is converted to the failure envelope carrying
that error's text (generate-comment's `try` body makes no client call, so
it always returns a success envelope).  The adapter's `close`, however,
has no such boundary: a raised client `close` propagates out of the
adapter unchanged. -/
theorem claim5_adapter_boundary_amended :
    (∀ cb u m mp, ∃ r,
      instagram_send_direct_message cb u m mp = Except.ok r) ∧
    (∀ cb n t, ∃ r, instagram_interact_with_posts cb n t = Except.ok r) ∧
    (∀ cb t n, ∃ r, instagram_scrape_followers cb t n = Except.ok r) ∧
    (∀ cb u m mp e, cb.ensureInit = Except.error e →
      instagram_send_direct_message cb u m mp =
        Except.ok (ToolResult.failure ("Failed to send message: " ++ e))) ∧
    (∀ cb u m mp e, cb.ensureInit = Except.ok () →
      cb.sendDM u m mp = Except.error e →
      instagram_send_direct_message cb u m mp =
        Except.ok (ToolResult.failure ("Failed to send message: " ++ e))) ∧
    (∀ cb n t e, cb.ensureInit = Except.error e →
      instagram_interact_with_posts cb n t =
        Except.ok
          (ToolResult.failure ("Failed to interact with posts: " ++ e))) ∧
    (∀ cb n a e, cb.ensureInit = Except.ok () →
      cb.gotoProfile a = Except.error e →
      instagram_interact_with_posts cb n (some a) =
        Except.ok
          (ToolResult.failure ("Failed to interact with posts: " ++ e))) ∧
    (∀ cb n e, cb.ensureInit = Except.ok () →
      cb.interact n = Except.error e →
      instagram_interact_with_posts cb n none =
        Except.ok
          (ToolResult.failure ("Failed to interact with posts: " ++ e))) ∧
    (∀ cb n a e, cb.ensureInit = Except.ok () →
      cb.gotoProfile a = Except.ok () →
      cb.interact n = Except.error e →
      instagram_interact_with_posts cb n (some a) =
        Except.ok
          (ToolResult.failure ("Failed to interact with posts: " ++ e))) ∧
    (∀ cb t n e, cb.ensureInit = Except.error e →
      instagram_scrape_followers cb t n =
        Except.ok
          (ToolResult.failure ("Failed to scrape followers: " ++ e))) ∧
    (∀ cb t n e, cb.ensureInit = Except.ok () →
      cb.scrape t n = Except.error e →
      instagram_scrape_followers cb t n =
        Except.ok
          (ToolResult.failure ("Failed to scrape followers: " ++ e))) ∧
    (∀ caption tone, ∃ p,
      instagram_generate_comment caption tone =
        Except.ok (ToolResult.success p)) ∧
    (∀ cb e, cb.closeClient = Except.error e →
      adapter_close cb true = Except.error e) := by
  refine ⟨?_, ?_, ?_, ?_, ?_, ?_, ?_, ?_, ?_, ?_, ?_, ?_, ?_⟩
  · intro cb u m mp; exact adapter_call_never_raises _ _
  · intro cb n t; exact adapter_call_never_raises _ _
  · intro cb t n; exact adapter_call_never_raises _ _
  · intro cb u m mp e hinit
    simp [instagram_send_direct_message, adapter_call, hinit]
  · intro cb u m mp e hinit hsend
    simp [instagram_send_direct_message, adapter_call, hinit, hsend]
  · intro cb n t e hinit
    simp [instagram_interact_with_posts, adapter_call, hinit]
  · intro cb n a e hinit hgoto
    simp [instagram_interact_with_posts, adapter_call, hinit, hgoto]
  · intro cb n e hinit hact
    simp [instagram_interact_with_posts, adapter_call, hinit, hact]
  · intro cb n a e hinit hgoto hact
    simp [instagram_interact_with_posts, adapter_call, hinit, hgoto, hact]
  · intro cb t n e hinit
    simp [instagram_scrape_followers, adapter_call, hinit]
  · intro cb t n e hinit hscrape
    simp [instagram_scrape_followers, adapter_call, hinit, hscrape]
  · intro caption tone; exact ⟨_, rfl⟩
  · intro cb e h; simp [adapter_close, h]

/-- A client whose awaited calls all succeed (scrape returning the stub
empty list, as the real stub does) except that `close` raises. -/
def failing_close_client : ClientBehavior :=
  { ensureInit := Except.ok ()
    sendDM := fun _ _ _ => Except.ok ()
    gotoProfile := fun _ => Except.ok ()
    interact := fun _ => Except.ok ()
    scrape := fun _ _ => Except.ok []
    closeClient := Except.error "Browser has been closed" }

/-- C5 counterexample: against a constructed client whose `close` raises,
the adapter's `close` lets the exception propagate to the external runtime
instead of converting it to a failure envelope. -/
theorem claim5_close_exception_escapes :
    adapter_close failing_close_client true =
      Except.error "Browser has been closed" := rfl

/-- A client behaving exactly like the repository's stubs: every awaited
call succeeds and `scrape_followers` returns the empty list. -/
def stub_ok_client : ClientBehavior :=
  { ensureInit := Except.ok ()
    sendDM := fun _ _ _ => Except.ok ()
    gotoProfile := fun _ => Except.ok ()
    interact := fun _ => Except.ok ()
    scrape := fun _ _ => Except.ok []
    closeClient := Except.ok () }

/-- C8: when the client's `scrape_followers` returns the empty list, the
adapter's scrape-followers call yields a **success** envelope with
`followers_count = 0`, `followers = []` and `total_available = "0/50"`, not
a failure envelope. -/
theorem claim8_scrape_empty_success (cb : ClientBehavior)
    (hinit : cb.ensureInit = Except.ok ())
    (hscrape : cb.scrape "brand" 50 = Except.ok []) :
    instagram_scrape_followers cb "brand" 50 =
      Except.ok (ToolResult.success
        [("message", JVal.str "Successfully scraped 0 followers from brand"),
         ("target_account", JVal.str "brand"),
         ("followers_count", JVal.num 0),
         ("followers", JVal.arr []),
         ("total_available", JVal.str "0/50")]) := by
  unfold instagram_scrape_followers
  rw [hinit, hscrape]
  rfl

/-- C8 witness: the stub client. -/
theorem claim8_scrape_empty_success_witness :
    instagram_scrape_followers stub_ok_client "brand" 50 =
      Except.ok (ToolResult.success
        [("message", JVal.str "Successfully scraped 0 followers from brand"),
         ("target_account", JVal.str "brand"),
         ("followers_count", JVal.num 0),
         ("followers", JVal.arr []),
         ("total_available", JVal.str "0/50")]) :=
  claim8_scrape_empty_success stub_ok_client rfl rfl

/-- C9: for any caption and tone, the adapter's generate-comment call
returns a success envelope whose payload holds exactly the fields
`message`, `generated_comment`, `post_caption_preview` and `tone`; the
preview equals the caption when it has at most 100 characters and its first
100 characters followed by "..." when longer, and the tone is echoed. -/
theorem claim9_generate_comment_payload (post_caption tone : String) :
    ∃ preview,
      instagram_generate_comment post_caption tone =
        Except.ok (ToolResult.success
          [("message", JVal.str "Comment generated successfully"),
           ("generated_comment", JVal.str adapter_comment_placeholder),
           ("post_caption_preview", JVal.str preview),
           ("tone", JVal.str tone)]) ∧
      (post_caption.length ≤ 100 → preview = post_caption) ∧
      (100 < post_caption.length →
        preview = post_caption.take 100 ++ "...") := by
  refine ⟨if post_caption.length > 100 then post_caption.take 100 ++ "..."
      else post_caption,
    rfl, fun h => ?_, fun h => ?_⟩
  · rw [if_neg (by omega)]
  · rw [if_pos (by omega)]

end Insta
